import Mathlib

/-!
Verification development for the BPlayblast Maya playblast controller
(`src/main.py`).  The `BPlayblast` class drives a capture-and-encode
pipeline: configuration setters with validation, preset resolution against
the host (Maya) environment, a viewport save/apply/restore transaction
around `cmds.playblast`, and construction of an external ffmpeg command.

The embedding models:
 - the mutable configuration of a `BPlayblast` instance as `Config`;
 - the ambient Maya host environment (cameras, active model panel,
   per-flag viewport visibility, render globals, time unit, linked sound
   node, filesystem) as `Host`;
 - observable external side effects of `execute` as `Effect` values;
 - Python exceptions as `Except`/an `exc` field: a `.error`/`some` value
   means the corresponding Python code raises.

Numbers that Python stores as floats (frame rates, frames, audio offsets)
are modelled as exact rationals `ℚ`; Python string formatting of such
numbers is modelled by `ratStr`, shared by every command builder so that
command-shape statements do not depend on the rendering.
-/

namespace BPlayblast

/-! ### String helpers (kernel-evaluable replacements for Python str ops) -/

/-- Is `pat` an initial segment of `s`? (structural recursion, so that all
witnesses evaluate inside the kernel). -/
def isHeadSeg : List Char → List Char → Bool
  | [], _ => true
  | _ :: _, [] => false
  | a :: as, b :: bs => a == b && isHeadSeg as bs

/-- Replace every occurrence of `pat` by `rep` in `s`, scanning left to
right (Python `str.replace`).  `fuel` bounds the recursion; it is started
at the length of the subject string. -/
def replaceFuel (pat rep : List Char) : Nat → List Char → List Char
  | _, [] => []
  | 0, s => s
  | Nat.succ n, c :: rest =>
    if pat ≠ [] ∧ isHeadSeg pat (c :: rest) then
      rep ++ replaceFuel pat rep n ((c :: rest).drop pat.length)
    else
      c :: replaceFuel pat rep n rest

/-- Python `s.replace(pat, rep)` (for non-empty `pat`). -/
def strReplace (s pat rep : String) : String :=
  ⟨replaceFuel pat.data rep.data s.data.length s.data⟩

/-- Python `s.endswith(t)`. -/
def strEndsWith (s t : String) : Bool :=
  s.data.reverse.take t.data.length == t.data.reverse

/-- Python `s[0:-n]` for `n ≤ len(s)`. -/
def strDropRight (s : String) (n : Nat) : String :=
  ⟨s.data.take (s.data.length - n)⟩

/-- Split a character list on a separator character. -/
def splitOnChar (sep : Char) : List Char → List (List Char)
  | [] => [[]]
  | c :: rest =>
    let r := splitOnChar sep rest
    if c == sep then [] :: r
    else
      match r with
      | h :: t => (c :: h) :: t
      | [] => [[c]]

/-- Parse a non-empty digit string as a natural number; `none` on any
non-digit character (the failing branch of Python `float(...)`). -/
def parseDigits (cs : List Char) : Option Nat :=
  if cs.isEmpty then none
  else
    cs.foldl
      (fun acc c =>
        match acc with
        | none => none
        | some n => if c.isDigit then some (10 * n + (c.toNat - 48)) else none)
      (some 0)

/-- Python `float(s)` restricted to the unsigned decimal literals relevant
here: `"24"`, `"29.97"`, … `none` models `ValueError`. -/
def pyFloat (s : String) : Option ℚ :=
  match splitOnChar '.' s.data with
  | [a] => (parseDigits a).map (fun n => (n : ℚ))
  | [a, b] =>
    match parseDigits a, parseDigits b with
    | some i, some f => some ((i : ℚ) + (f : ℚ) / ((10 : ℚ) ^ b.length))
    | _, _ => none
  | _ => none

/-- Render a rational the way Python prints the floats arising here:
integral values get a trailing `.0`; other values are shown as a
fraction.  Shared by the code-level and spec-level command builders, so
command-shape comparisons are independent of this choice. -/
def ratStr (q : ℚ) : String :=
  if q.den = 1 then toString q.num ++ ".0"
  else toString q.num ++ "/" ++ toString q.den

/-- Python `repr` of a list of strings, e.g. `['h264']`. -/
def strListRepr (l : List String) : String :=
  "[" ++ String.intercalate ", " (l.map (fun s => "'" ++ s ++ "'")) ++ "]"

/-- Python truthiness of an optional string (`None` and `""` are falsy). -/
def optTruthy : Option String → Bool
  | none => false
  | some s => s ≠ ""

/-- Python `str(...)` of an optional string (`None` prints as `"None"`). -/
def optStr : Option String → String
  | none => "None"
  | some s => s

/-- `os.path.join` with `/` separator (the only cases exercised by the
controller; the absolute-second-argument special case never arises). -/
def os_path_join (a b : String) : String :=
  if a = "" then b
  else if strEndsWith a "/" then a ++ b
  else a ++ "/" ++ b

/-- `os.path.normpath`, modelled as the identity: the controller only ever
passes already-normalised single-separator paths, and no claim depends on
separator normalisation. -/
def os_path_normpath (p : String) : String := p

/-- Python `int(...)` on a rational: truncation toward zero. -/
def pyInt (q : ℚ) : Int :=
  if 0 ≤ q then q.floor else q.ceil

/-- `os.path.splitext(s)[0]`: drop the last dot-extension.  (The
leading-dot special case of Python is not reproduced; scene files always
have a proper basename.) -/
def dropLastExt (s : String) : String :=
  match s.splitOn "." with
  | [] => s
  | [_] => s
  | parts => String.intercalate "." parts.dropLast

/-! ### Class-level constant tables (`BPlayblast` class attributes) -/

/-- `BPlayblast.RESOLUTION_LOOKUP`.  The `"Render"` entry is the empty
tuple in the source; it is never read (the `"Render"` branch of
`preset_to_resolution` queries the host instead). -/
def RESOLUTION_LOOKUP : List (String × List Int) :=
  [("Render", []),
   ("HD 1080", [1920, 1080]),
   ("HD 720", [1280, 720]),
   ("HD 540", [960, 540])]

/-- `BPlayblast.FRAME_RANGE_PRESETS`. -/
def FRAME_RANGE_PRESETS : List String := ["Render", "Playback", "Animation"]

/-- `BPlayblast.VIDEO_ENCODER_LOOKUP`: container → allowed encoders. -/
def VIDEO_ENCODER_LOOKUP : List (String × List String) :=
  [("mov", ["h264"]),
   ("mp4", ["h264"]),
   ("Image", ["jpg", "png", "tif"])]

/-- `BPlayblast.H264_QUALITIES`: quality label → CRF value. -/
def H264_QUALITIES : List (String × Int) :=
  [("Very high", 18), ("High", 20), ("Medium", 23), ("Low", 26)]

/-- `BPlayblast.H264_PRESETS`. -/
def H264_PRESETS : List String :=
  ["veryslow", "slow", "medium", "fast", "faster", "ultrafast"]

/-- `BPlayblast.VIEWPORT_VISIBILITY_LOOKUP`: (display label, modelEditor
flag name), in source order.  Note: the source list has 37 entries. -/
def VIEWPORT_VISIBILITY_LOOKUP : List (String × String) :=
  [("Controllers", "controllers"),
   ("NURBS Curves", "nurbsCurves"),
   ("NURBS Surfaces", "nurbsSurfaces"),
   ("NURBS CVs", "cv"),
   ("NURBS Hulls", "hulls"),
   ("Polygons", "polymeshes"),
   ("Subdiv Surfaces", "subdivSurfaces"),
   ("Planes", "planes"),
   ("Lights", "lights"),
   ("Cameras", "cameras"),
   ("Image Planes", "imagePlane"),
   ("Joints", "joints"),
   ("IK Handles", "ikHandles"),
   ("Deformers", "deformers"),
   ("Dynamics", "dynamics"),
   ("Particle Instancers", "particleInstancers"),
   ("Fluids", "fluids"),
   ("Hair Systems", "hairSystems"),
   ("Follicles", "follicles"),
   ("nCloths", "nCloths"),
   ("nParticles", "nParticles"),
   ("nRigids", "nRigids"),
   ("Dynamic Constraints", "dynamicConstraints"),
   ("Locators", "locators"),
   ("Dimensions", "dimensions"),
   ("Pivots", "pivots"),
   ("Handles", "handles"),
   ("Texture Placements", "textures"),
   ("Strokes", "strokes"),
   ("Motion Trails", "motionTrails"),
   ("Plugin Shapes", "pluginShapes"),
   ("Clip Ghosts", "clipGhosts"),
   ("Grease Pencil", "greasePencils"),
   ("Grid", "grid"),
   ("HUD", "hud"),
   ("Hold-Outs", "hos"),
   ("Selection Highlighting", "sel")]

/-- `BPlayblast.VIEWPORT_VISIBILITY_PRESETS`. -/
def VIEWPORT_VISIBILITY_PRESETS : List (String × List String) :=
  [("Viewport", []),
   ("Geo", ["NURBS Surfaces", "Polygons"]),
   ("Dynamics", ["NURBS Surfaces", "Polygons", "Dynamics", "Fluids", "nParticles"])]

/-! ### Data model -/

/-- The mutable configuration of a `BPlayblast` instance (the `self._*`
attributes set by the validated setters). -/
structure Config where
  ffmpeg_path : String
  camera : Option String
  resolution_preset : Option String
  width_height : Int × Int
  frame_range_preset : Option String
  start_frame : ℚ
  end_frame : ℚ
  container_format : String
  encoder : String
  h264_quality : String
  h264_preset : String
  image_quality : Int
  visibility : List Bool
deriving DecidableEq, Repr

/-- The ambient Maya host environment consumed through `cmds`/`mel`
queries, together with the filesystem surface the controller reads.
`visFlag` gives the current value of each named modelEditor visibility
flag of the active panel; `playblastOk` says whether the
`cmds.playblast` capture primitive succeeds or raises; `rmdirOk` says
whether `QDir.rmdir` on the temp directory succeeds. -/
structure Host where
  cameras : List String
  activePanel : Option String
  activeCamera : String
  visFlag : String → Bool
  renderWidth : Int
  renderHeight : Int
  renderStart : ℚ
  renderEnd : ℚ
  playbackMin : ℚ
  playbackMax : ℚ
  animStart : ℚ
  animEnd : ℚ
  timeUnit : String
  soundNode : Option String
  soundFile : String → String
  soundOffset : String → ℚ
  projectRoot : String
  sceneName : String
  fileExists : String → Bool
  isDir : String → Bool
  playblastOk : Bool
  rmdirOk : Bool

/-- The option set handed to `cmds.playblast` in `execute` (step 6). -/
structure PlayblastOptions where
  filename : String
  width : Int
  height : Int
  percent : Int
  startTime : ℚ
  endTime : ℚ
  clearCache : Bool
  forceOverwrite : Bool
  format : String
  compression : String
  quality : Int
  indexFromZero : Bool
  framePadding : Int
  showOrnaments : Bool
  viewer : Bool
deriving DecidableEq, Repr

/-- Observable external side effects of one `execute` call, beyond the
viewport mutations tracked in `Host` and the log lines.  `capture` records
that the `cmds.playblast` primitive was invoked (with its option set and
the camera the viewport was looking through); the launcher choice inside
`open_in_viewer` (quicktime override vs. desktop services) is collapsed
into the single `openViewer` effect. -/
inductive Effect where
  | capture (opts : PlayblastOptions) (camera : String)
  | runFfmpeg (cmd : String)
  | removeTempDir (path : String)
  | openViewer (path : String)
deriving DecidableEq, Repr

/-- Does an effect record an invocation of the capture primitive? -/
def isCaptureEffect : Effect → Bool
  | .capture _ _ => true
  | _ => false

/-- Result of one `execute` call: the host state after the call, the log
lines emitted (in order), the external effects performed, and — when the
Python code would let an exception escape to the caller — `exc = some msg`. -/
structure ExecResult where
  host : Host
  log : List String
  effects : List Effect
  exc : Option String

/-- Decidable equality for `Except` (core does not derive it), so that
concrete runs of the fallible operations can be checked by `decide`. -/
instance {ε α : Type} [DecidableEq ε] [DecidableEq α] : DecidableEq (Except ε α) :=
  fun x y =>
    match x, y with
    | .ok a, .ok b => decidable_of_iff (a = b) (by simp)
    | .error a, .error b => decidable_of_iff (a = b) (by simp)
    | .ok _, .error _ => isFalse (by simp)
    | .error _, .ok _ => isFalse (by simp)

/-- `log_error`: a line as it reaches the `output_logged` stream. -/
def errLine (t : String) : String := "[ERROR] " ++ t

/-- `log_warning`. -/
def warnLine (t : String) : String := "[WARNING] " ++ t

/-! ### Member functions of `BPlayblast` (configuration / resolution) -/

/-- `validate_ffmpeg` (source lines 167-178): returns success plus the log
lines it emits. -/
def validate_ffmpeg (cfg : Config) (host : Host) : Bool × List String :=
  if cfg.ffmpeg_path = "" then
    (false, [errLine "ffmpeg executable path not set"])
  else if ¬ host.fileExists cfg.ffmpeg_path then
    (false, [errLine ("ffmpeg executable path does not exists: " ++ cfg.ffmpeg_path)])
  else if host.isDir cfg.ffmpeg_path then
    (false, [errLine ("Invalid ffmpeg path: " ++ cfg.ffmpeg_path)])
  else
    (true, [])

/-- `get_viewport_panel` (lines 462-468): the focused panel if it is a
model panel, else a logged error.  `Host.activePanel` is `none` exactly
when the focused panel is not a model panel. -/
def get_viewport_panel (host : Host) : Option String × List String :=
  match host.activePanel with
  | some p => (some p, [])
  | none => (none, [errLine "Failed to get active view"])

/-- `get_active_camera` (lines 454-460). -/
def get_active_camera (host : Host) : Option String × List String :=
  match host.activePanel with
  | none => (none, [errLine "Failed to get active camera. A viewport is not active."])
  | some _ => (some host.activeCamera, [])

/-- `set_active_camera` (lines 447-452): look through `camera_name` in the
active model panel (a host mutation), else a logged error. -/
def set_active_camera (host : Host) (camera_name : String) : Host × List String :=
  match host.activePanel with
  | some _ => ({ host with activeCamera := camera_name }, [])
  | none => (host, [errLine "Failed to set active camera. A viewport is not active."])

/-- `get_scene_name` (lines 470-477). -/
def get_scene_name (host : Host) : String :=
  if host.sceneName = "" then "untitled" else dropLastExt host.sceneName

/-- `get_project_dir_path` (lines 479-480). -/
def get_project_dir_path (host : Host) : String := host.projectRoot

/-- `resolve_output_directory_path` (lines 513-517). -/
def resolve_output_directory_path (host : Host) (dir_path : String) : String :=
  strReplace dir_path "\x7bproject\x7d" (get_project_dir_path host)

/-- `resolve_output_filename` (lines 519-523). -/
def resolve_output_filename (host : Host) (filename : String) : String :=
  strReplace filename "\x7bscene\x7d" (get_scene_name host)

/-- `preset_to_resolution` (lines 324-332).  A `.error` models the
`RuntimeError` raised for an unknown preset. -/
def preset_to_resolution (host : Host) (resolution_preset : String) :
    Except String (Int × Int) :=
  if resolution_preset = "Render" then
    .ok (host.renderWidth, host.renderHeight)
  else
    match RESOLUTION_LOOKUP.lookup resolution_preset with
    | some [w, h] => .ok (w, h)
    | some _ => .error ("Invalid resolution preset: " ++ resolution_preset)
    | none => .error ("Invalid resolution preset: " ++ resolution_preset)

/-- `get_resolution_width_height` (lines 318-322): a stored (truthy)
preset is re-resolved at call time, otherwise the stored pair is
returned. -/
def get_resolution_width_height (cfg : Config) (host : Host) :
    Except String (Int × Int) :=
  if optTruthy cfg.resolution_preset then
    preset_to_resolution host (cfg.resolution_preset.getD "")
  else
    .ok cfg.width_height

/-- `preset_to_frame_range` (lines 334-347). -/
def preset_to_frame_range (host : Host) (frame_range_preset : String) :
    Except String (ℚ × ℚ) :=
  if frame_range_preset = "Render" then
    .ok (host.renderStart, host.renderEnd)
  else if frame_range_preset = "Playback" then
    .ok ((pyInt host.playbackMin : ℚ), (pyInt host.playbackMax : ℚ))
  else if frame_range_preset = "Animation" then
    .ok ((pyInt host.animStart : ℚ), (pyInt host.animEnd : ℚ))
  else
    .error ("Invalid frame range preset: " ++ frame_range_preset)

/-- `get_start_end_frame` (lines 434-438). -/
def get_start_end_frame (cfg : Config) (host : Host) : Except String (ℚ × ℚ) :=
  if optTruthy cfg.frame_range_preset then
    preset_to_frame_range host (cfg.frame_range_preset.getD "")
  else
    .ok (cfg.start_frame, cfg.end_frame)

/-- `preset_to_visibility` (lines 368-381): `none` (plus a logged error)
for an unknown preset name; the empty list for `"Viewport"`; otherwise one
boolean per catalog entry, true iff the entry's display label is in the
preset's label set. -/
def preset_to_visibility (visibility_preset : String) :
    Option (List Bool) × List String :=
  match VIEWPORT_VISIBILITY_PRESETS.lookup visibility_preset with
  | none => (none, [errLine ("Invalid visibility preset: " ++ visibility_preset)])
  | some preset_names =>
    if preset_names = [] then (some [], [])
    else
      (some (VIEWPORT_VISIBILITY_LOOKUP.map (fun item => preset_names.contains item.1)), [])

/-- `get_viewport_visibility` (lines 482-498): snapshot the current value
of every catalog flag on the active panel's model editor (one query per
entry), or `none` plus a logged error when no viewport is active.  The
`except` branch for a failing Maya query is not modelled: `Host.visFlag`
is total. -/
def get_viewport_visibility (host : Host) : Option (List Bool) × List String :=
  match host.activePanel with
  | none => (none, [errLine "Failed to get viewport visibility. A viewport is not active"])
  | some _ =>
    (some (VIEWPORT_VISIBILITY_LOOKUP.map (fun item => host.visFlag item.2)), [])

/-- `get_visibility` (lines 362-366): an empty stored visibility list is
falsy, so the live viewport snapshot is used. -/
def get_visibility (cfg : Config) (host : Host) : Option (List Bool) × List String :=
  if cfg.visibility = [] then get_viewport_visibility host
  else (some cfg.visibility, [])

/-- `create_viewport_visibility_flags` (lines 503-511): pair each catalog
flag name with the corresponding entry of `visibility_data`.  Python
raises `IndexError` while indexing when the data is shorter than the
catalog (and raises `TypeError` when it is `None`); since building the
dict has no other effect, those exceptions are modelled by explicit
guards at the call sites in `execute_capture`, and this function is the
total core. -/
def create_viewport_visibility_flags (visibility_data : List Bool) :
    List (String × Bool) :=
  (VIEWPORT_VISIBILITY_LOOKUP.map Prod.snd).zip visibility_data

/-- `set_viewport_visibility` (lines 500-501): apply the named flags to
the model editor (`cmds.modelEditor(e=True, **flags)`); flags not named
keep their value. -/
def set_viewport_visibility (host : Host) (visibility_flags : List (String × Bool)) :
    Host :=
  { host with visFlag := fun n => (visibility_flags.lookup n).getD (host.visFlag n) }

/-- `set_encoding` (lines 383-391).  An invalid container logs an error
and then raises `KeyError` at the `VIDEO_ENCODER_LOOKUP[container_format]`
subscript (modelled by `.error`); a valid container with an invalid
encoder logs an error; in the latter case (and for valid pairs) both
fields are then unconditionally overwritten. -/
def set_encoding (cfg : Config) (container_format encoder : String) :
    Except String Config × List String :=
  match VIDEO_ENCODER_LOOKUP.lookup container_format with
  | none =>
    (.error ("KeyError: " ++ container_format),
     [errLine ("Invalid container: " ++ container_format ++
       ". Expected one of " ++ strListRepr (VIDEO_ENCODER_LOOKUP.map Prod.fst))])
  | some encoders =>
    let log2 :=
      if encoder ∉ encoders then
        [errLine ("Invalid encoder: " ++ encoder ++ ". Expected one of " ++
          strListRepr encoders)]
      else []
    (.ok { cfg with container_format := container_format, encoder := encoder }, log2)

/-- `set_camera` (lines 440-445): a truthy camera name missing from the
host's camera list is logged and replaced by `None`; the (possibly
replaced) argument is then stored. -/
def set_camera (cfg : Config) (host : Host) (camera : Option String) :
    Config × List String :=
  if optTruthy camera ∧ ¬ host.cameras.contains (camera.getD "") then
    ({ cfg with camera := none },
     [errLine ("Camera does not exist: " ++ optStr camera)])
  else
    ({ cfg with camera := camera }, [])

/-- The camera `execute` captures through (lines 614-616): the stored
camera if truthy, else the camera the active viewport is currently
looking through. -/
def effective_camera (cfg : Config) (orig_camera : Option String) : Option String :=
  if optTruthy cfg.camera then cfg.camera else orig_camera

/-- Line 618: `camera in cmds.listCameras()` (Python `None` is never a
member of the camera list). -/
def camera_in_list (host : Host) : Option String → Bool
  | some c => host.cameras.contains c
  | none => false

/-- `requires_ffmpeg` (lines 541-542). -/
def requires_ffmpeg (cfg : Config) : Bool := cfg.container_format != "Image"

/-! ### EncoderInvoker (`get_frame_rate`, audio, `encode_h264`) -/

/-- `get_frame_rate` (lines 228-250): fixed lookup over the host's current
time unit; a trailing `"fps"` suffix is passed to `float(...)`; `.error`
models the raised `RuntimeError` (unknown unit) or `ValueError` (an
`fps`-suffixed string whose remainder is not a float literal). -/
def get_frame_rate (host : Host) : Except String ℚ :=
  let rate_str := host.timeUnit
  if rate_str = "game" then .ok 15
  else if rate_str = "film" then .ok 24
  else if rate_str = "pal" then .ok 25
  else if rate_str = "ntsc" then .ok 30
  else if rate_str = "show" then .ok 48
  else if rate_str = "palf" then .ok 50
  else if rate_str = "ntscf" then .ok 60
  else if strEndsWith rate_str "fps" then
    match pyFloat (strDropRight rate_str 3) with
    | some q => .ok q
    | none =>
      .error ("ValueError: could not convert string to float: " ++
        strDropRight rate_str 3)
  else .error ("Unsupported frame rate: " ++ rate_str)

/-- `get_audio_attributes` (lines 252-262).  The outer `none` models the
*implicit* `None` return Python falls into when a sound node is linked but
its backing file does not exist (the `if file_info.exists()` body has no
`else` and the `else` at line 261 belongs to `if sound_node`); unpacking
that `None` raises `TypeError` in the caller.  `some (none, none)` is the
explicit `(None, None)` return for no linked sound node. -/
def get_audio_attributes (host : Host) : Option (Option String × Option ℚ) :=
  match host.soundNode with
  | some sound_node =>
    let file_path := host.soundFile sound_node
    if host.fileExists file_path then
      some (some file_path, some (host.soundOffset sound_node))
    else
      none
  | none => some (none, none)

/-- `get_audio_offset_in_sec` (lines 264-265). -/
def get_audio_offset_in_sec (start_frame audio_frame_offset frame_rate : ℚ) : ℚ :=
  (start_frame - audio_frame_offset) / frame_rate

/-- `encode_h264` (lines 201-226).  On success, returns the log lines it
emits (the command echoed by `log_output`) and the ffmpeg command line it
starts.  `.error` models the exceptions that escape: the propagated
`get_frame_rate` error, the `TypeError` from unpacking an implicit `None`
audio result, the `KeyError` for an unknown quality label, and — the
source's line 220 typo `ffmpeg +=` on an undefined name — a `NameError`
whenever an audio file is present. -/
def encode_h264 (cfg : Config) (host : Host)
    (source_path output_path : String) (start_frame : ℚ) :
    Except String (List String × String) :=
  match get_frame_rate host with
  | .error e => .error e
  | .ok frame_rate =>
    match get_audio_attributes host with
    | none => .error "TypeError: cannot unpack non-iterable NoneType object"
    | some (audio_file_path, audio_frame_offset) =>
      let audio_offset : Option ℚ :=
        match audio_file_path, audio_frame_offset with
        | some _, some off => some (get_audio_offset_in_sec start_frame off frame_rate)
        | _, _ => none
      match H264_QUALITIES.lookup cfg.h264_quality with
      | none => .error ("KeyError: " ++ cfg.h264_quality)
      | some crf =>
        let preset := cfg.h264_preset
        let ffmpeg_cmd := cfg.ffmpeg_path
        let ffmpeg_cmd := ffmpeg_cmd ++ " -y -framerate " ++ ratStr frame_rate ++
          " -i \"" ++ source_path ++ "\""
        let ffmpeg_cmd :=
          match audio_file_path, audio_offset with
          | some af, some off =>
            ffmpeg_cmd ++ " -ss " ++ ratStr off ++ " -i \"" ++ af ++ "\""
          | _, _ => ffmpeg_cmd
        let ffmpeg_cmd := ffmpeg_cmd ++ " -c:v libx264 -crf:v " ++ toString crf ++
          " -preset:v " ++ preset ++ " -profile high -level 4.0 -pix_fmt yuv420p"
        match audio_file_path with
        | some _ => .error "NameError: name 'ffmpeg' is not defined"
        | none =>
          let ffmpeg_cmd := ffmpeg_cmd ++ " \"" ++ output_path ++ "\""
          .ok ([ffmpeg_cmd], ffmpeg_cmd)

/-- `remove_temp_dir` (lines 267-276): delete the temp frame files and the
directory; a failing `rmdir` logs a warning. -/
def remove_temp_dir (host : Host) (temp_dir_path : String) :
    List String × List Effect :=
  ((if host.rmdirOk then []
    else [warnLine ("Failed to remove temporary directory: " ++ temp_dir_path)]),
   [Effect.removeTempDir temp_dir_path])

/-- `open_in_viewer` (lines 278-289): error if the artifact is missing;
otherwise launch an external viewer on it (the quicktime-override and
desktop-services branches both reduce to the `openViewer` effect). -/
def open_in_viewer (_cfg : Config) (host : Host) (path : String) :
    List String × List Effect :=
  if ¬ host.fileExists path then
    ([errLine ("Failed to open in viewer. File does not exists : " ++ path)], [])
  else
    ([], [Effect.openViewer path])

/-! ### CaptureOrchestrator (`execute`) -/

/-- Lines 627-658 of `execute`: apply the capture visibility flags, run
`cmds.playblast` inside try/finally (the `finally` always restores the
original camera and visibility flags), then — on capture success — the
encode / cleanup / viewer steps.  `host1` is the host after the capture
camera was applied; `camera`/`orig_camera` and the two flag dictionaries
are the locals of lines 612-625; `logPre` the log emitted so far. -/
def execute_do_capture (cfg : Config) (fn : String) (pad : Int) (siv req : Bool)
    (output_path playblast_output_dir : String) (options : PlayblastOptions)
    (camera orig_camera : Option String)
    (orig_visibility_flags playblast_visibility_flags : List (String × Bool))
    (host1 : Host) (logPre : List String) : ExecResult :=
  let host2 := set_viewport_visibility host1 playblast_visibility_flags
  let capture_effects := [Effect.capture options (optStr camera)]
  let playblast_failed := ¬ host1.playblastOk
  let captureLog :=
    if host1.playblastOk then []
    else [errLine "Failed to created playblast. See script editor for details"]
  -- lines 637-640 (finally): restore original camera and visibility
  let host3 := (set_active_camera host2 (optStr orig_camera)).1
  let host4 := set_viewport_visibility host3 orig_visibility_flags
  let logAll := logPre ++ captureLog
  if playblast_failed then
    { host := host4, log := logAll, effects := capture_effects, exc := none }
  else if req then
    let source_path := playblast_output_dir ++ "/" ++ fn ++ ".%0" ++
      toString pad ++ "d.png"
    if cfg.encoder = "h264" then
      match encode_h264 cfg host4 source_path output_path options.startTime with
      | .error e =>
        -- the exception escapes before remove_temp_dir runs
        { host := host4, log := logAll, effects := capture_effects, exc := some e }
      | .ok encRes =>
        let rt := remove_temp_dir host4 playblast_output_dir
        let iv := if siv then open_in_viewer cfg host4 output_path else ([], [])
        { host := host4
          log := logAll ++ encRes.1 ++ rt.1 ++ iv.1
          effects := capture_effects ++ [Effect.runFfmpeg encRes.2] ++ rt.2 ++ iv.2
          exc := none }
    else
      let rt := remove_temp_dir host4 playblast_output_dir
      { host := host4
        log := logAll ++
          [errLine ("Encoding failed. Unsupported encoder (" ++ cfg.encoder ++
            ") for container (" ++ cfg.container_format ++ ")")] ++ rt.1
        effects := capture_effects ++ rt.2
        exc := none }
  else
    { host := host4, log := logAll, effects := capture_effects, exc := none }

/-- The tail of `execute` from line 589 (resolution lookup) to the end:
shared by the encoding and image-sequence branches of step 3.  The
arguments after `padding` are the branch-dependent locals computed at
lines 567-587 (`output_path` and `playblast_output_dir` are only read when
`requires` is true, exactly as in the source, where they would be unbound
otherwise).  Lines 589-625 are here; from line 627 on the work is done by
`execute_do_capture`. -/
def execute_capture (cfg : Config) (host : Host) (filename : String)
    (padding : Int) (show_ornaments show_in_viewer : Bool)
    (requires : Bool) (output_path playblast_output_dir playblast_output : String)
    (force_overwrite : Bool) (compression : String) (image_quality : Int)
    (index_from_zero viewer : Bool) : ExecResult :=
  match get_resolution_width_height cfg host with
  | .error e => { host := host, log := [], effects := [], exc := some e }
  | .ok width_height =>
  match get_start_end_frame cfg host with
  | .error e => { host := host, log := [], effects := [], exc := some e }
  | .ok start_end =>
  let options : PlayblastOptions :=
    { filename := playblast_output
      width := width_height.1
      height := width_height.2
      percent := 100
      startTime := start_end.1
      endTime := start_end.2
      clearCache := true
      forceOverwrite := force_overwrite
      format := "image"
      compression := compression
      quality := image_quality
      indexFromZero := index_from_zero
      framePadding := padding
      showOrnaments := show_ornaments
      viewer := viewer }
  -- line 609: `log_output(f"Playblast options: {options}")`; the Python
  -- dict repr is abbreviated to the target filename in this model.
  let optionsLog := ["Playblast options: " ++ playblast_output]
  -- line 612: store the original camera
  let origCam := get_active_camera host
  let orig_camera := origCam.1
  let camera := effective_camera cfg orig_camera
  -- line 618: `if not camera in cmds.listCameras()`
  if ¬ camera_in_list host camera then
    { host := host
      log := optionsLog ++ origCam.2 ++
        [errLine ("Camera does not exists: " ++ optStr camera)]
      effects := []
      exc := none }
  else
  let host1 := (set_active_camera host (optStr camera)).1
  -- line 624: snapshot the original visibility flags;
  -- `create_viewport_visibility_flags(None)` would subscript `None`
  let ovis := get_viewport_visibility host1
  if ovis.1.isNone then
    { host := host1, log := optionsLog ++ origCam.2 ++ ovis.2, effects := [],
      exc := some "TypeError: 'NoneType' object is not subscriptable" }
  else
  let orig_vis := ovis.1.getD []
  if orig_vis.length < VIEWPORT_VISIBILITY_LOOKUP.length then
    { host := host1, log := optionsLog ++ origCam.2, effects := [],
      exc := some "IndexError: list index out of range" }
  else
  let orig_visibility_flags := create_viewport_visibility_flags orig_vis
  -- line 625: the flags to apply during the capture
  let pvis := get_visibility cfg host1
  if pvis.1.isNone then
    { host := host1, log := optionsLog ++ origCam.2 ++ pvis.2, effects := [],
      exc := some "TypeError: 'NoneType' object is not subscriptable" }
  else
  let play_vis := pvis.1.getD []
  if play_vis.length < VIEWPORT_VISIBILITY_LOOKUP.length then
    { host := host1, log := optionsLog ++ origCam.2, effects := [],
      exc := some "IndexError: list index out of range" }
  else
  let playblast_visibility_flags := create_viewport_visibility_flags play_vis
  execute_do_capture cfg filename padding show_in_viewer requires
    output_path playblast_output_dir options camera orig_camera
    orig_visibility_flags playblast_visibility_flags host1
    (optionsLog ++ origCam.2)

/-- `execute` (lines 544-658): precondition checks, path computation, the
viewport transaction around the capture, and the optional encode step.
Mirrors the source's ordered early returns; `execute_capture` is the
shared tail from line 589 on. -/
def execute (cfg : Config) (host : Host) (output_dir filename : String)
    (padding : Int) (show_ornaments show_in_viewer overwrite : Bool) : ExecResult :=
  let requires := requires_ffmpeg cfg
  -- line 545: `requires_ffmpeg() and not validate_ffmpeg()` (short-circuit)
  let v := if requires then validate_ffmpeg cfg host else (true, [])
  if ¬ v.1 then
    { host := host
      log := v.2 ++
        [errLine "ffmpeg executable is not configured. See script editor for details."]
      effects := []
      exc := none }
  else
  match get_viewport_panel host with
  | (none, plog) =>
    { host := host
      log := plog ++
        [errLine "An active viewport is not selected. Select the viewport and retry"]
      effects := []
      exc := none }
  | (some _, _) =>
  if output_dir = "" then
    { host := host, log := [errLine "Output directory path not set"],
      effects := [], exc := none }
  else if filename = "" then
    { host := host, log := [errLine "Output file name not set"],
      effects := [], exc := none }
  else
  let output_dir := resolve_output_directory_path host output_dir
  let filename := resolve_output_filename host filename
  let padding := if padding ≤ 0 then 4 else padding
  if requires then
    let output_path :=
      os_path_normpath (os_path_join output_dir
        (filename ++ "." ++ cfg.container_format))
    if ¬ overwrite ∧ host.fileExists output_path then
      { host := host
        log := [errLine "Output file already exists. Enable overwrite to ignore."]
        effects := []
        exc := none }
    else
      let playblast_output_dir := output_dir ++ "/playblast_temp"
      let playblast_output :=
        os_path_normpath (os_path_join playblast_output_dir filename)
      execute_capture cfg host filename padding show_ornaments show_in_viewer
        true output_path playblast_output_dir playblast_output
        true "png" 100 true false
  else
    let playblast_output := os_path_normpath (os_path_join output_dir filename)
    execute_capture cfg host filename padding show_ornaments show_in_viewer
      false "" "" playblast_output
      overwrite cfg.encoder cfg.image_quality false show_in_viewer

/-! ### Spec-side definitions (written from the specification's words, for
refinement comparisons against the source-level definitions above) -/

/-- The viewport state the spec's "transaction" clause talks about: the
active camera together with the value of every catalog visibility flag of
the model editor, in catalog order. -/
def viewport_snapshot (host : Host) : String × List Bool :=
  (host.activeCamera, VIEWPORT_VISIBILITY_LOOKUP.map (fun item => host.visFlag item.2))

/-- The encoder command line exactly as §6 of the spec writes it:
`<ffmpegPath> -y -framerate <fps> -i "<framePattern>"
[-ss <offset> -i "<audioFile>"] -c:v libx264 -crf:v <crf> -preset:v
<preset> -profile high -level 4.0 -pix_fmt yuv420p
[-filter_complex "[1:0] apad" -shortest] "<outputPath>"`. -/
def spec_h264_cmd (ffmpegPath : String) (fps : ℚ) (framePattern : String)
    (audio : Option (ℚ × String)) (crf : Int) (preset : String)
    (outputPath : String) : String :=
  let base := ffmpegPath ++ " -y -framerate " ++ ratStr fps ++
    " -i \"" ++ framePattern ++ "\""
  let base :=
    match audio with
    | some (off, af) => base ++ " -ss " ++ ratStr off ++ " -i \"" ++ af ++ "\""
    | none => base
  let base := base ++ " -c:v libx264 -crf:v " ++ toString crf ++
    " -preset:v " ++ preset ++ " -profile high -level 4.0 -pix_fmt yuv420p"
  let base :=
    match audio with
    | some _ => base ++ " -filter_complex \"[1:0] apad\" -shortest"
    | none => base
  base ++ " \"" ++ outputPath ++ "\""

/-- The frame-rate contract in the amended form of claim C6: the named
units map through the fixed table; an `"fps"`-suffixed unit whose
remainder is a decimal literal is parsed to that value; every other unit
(including `"fps"`-suffixed units with a non-numeric remainder) is a fatal
error for the call. -/
def spec_frame_rate (u : String) : Except String ℚ :=
  if u = "game" then .ok 15
  else if u = "film" then .ok 24
  else if u = "pal" then .ok 25
  else if u = "ntsc" then .ok 30
  else if u = "show" then .ok 48
  else if u = "palf" then .ok 50
  else if u = "ntscf" then .ok 60
  else if strEndsWith u "fps" then
    match pyFloat (strDropRight u 3) with
    | some q => .ok q
    | none =>
      .error ("ValueError: could not convert string to float: " ++ strDropRight u 3)
  else .error ("Unsupported frame rate: " ++ u)

/-- The expansion claim C5 forces for preset `"Geo"`: one boolean per
catalog entry, true exactly on the slots labelled `"NURBS Surfaces"` and
`"Polygons"`. -/
def geoExpected : List Bool :=
  VIEWPORT_VISIBILITY_LOOKUP.map
    (fun item => item.1 == "NURBS Surfaces" || item.1 == "Polygons")

/-! ### Concrete fixtures for witnesses and counterexamples -/

/-- A well-formed host: an active model panel looking through `persp`,
a film (24 fps) time unit, no linked sound node, a filesystem on which
only the ffmpeg binary exists, and a capture primitive that succeeds. -/
def hostBase : Host :=
  { cameras := ["persp", "top", "front", "side", "shotCam"]
    activePanel := some "modelPanel4"
    activeCamera := "persp"
    visFlag := fun n => n == "grid" || n == "polymeshes" || n == "hud"
    renderWidth := 1920
    renderHeight := 1080
    renderStart := 1
    renderEnd := 10
    playbackMin := 1
    playbackMax := 24
    animStart := 1
    animEnd := 48
    timeUnit := "film"
    soundNode := none
    soundFile := fun _ => ""
    soundOffset := fun _ => 0
    projectRoot := "/proj"
    sceneName := "shot010.ma"
    fileExists := fun s => s == "/bin/ffmpeg"
    isDir := fun _ => false
    playblastOk := true
    rmdirOk := true }

/-- `hostBase` with a linked sound node whose backing file exists. -/
def hostAudio : Host :=
  { hostBase with
    soundNode := some "soundNode1"
    soundFile := fun _ => "/tmp/audio.wav"
    soundOffset := fun _ => 1
    fileExists := fun s => s == "/bin/ffmpeg" || s == "/tmp/audio.wav" }

/-- `hostBase` with a linked sound node whose backing file is missing. -/
def hostAudioMissing : Host :=
  { hostBase with
    soundNode := some "soundNode1"
    soundFile := fun _ => "/tmp/audio.wav"
    soundOffset := fun _ => 1 }

/-- A configuration as the constructor leaves it for an mp4/h264 playblast
with explicit resolution and frame range, everything valid. -/
def cfgBase : Config :=
  { ffmpeg_path := "/bin/ffmpeg"
    camera := none
    resolution_preset := none
    width_height := (640, 480)
    frame_range_preset := none
    start_frame := 1
    end_frame := 10
    container_format := "mp4"
    encoder := "h264"
    h264_quality := "High"
    h264_preset := "fast"
    image_quality := 100
    visibility := [] }

/-- `cfgBase` in image-sequence mode (no encoding step). -/
def cfgImage : Config :=
  { cfgBase with container_format := "Image", encoder := "png" }

/-- `hostBase` with the final mp4 artifact already present on disk. -/
def hostOutExists : Host :=
  { hostBase with
    fileExists := fun s => s == "/bin/ffmpeg" || s == "/tmp/movies/shot.mp4" }

/-! ## Helper lemmas -/

/-- Whatever `execute_do_capture` does after the capture, the host it
returns is always the doubly-restored one (original camera re-applied,
original visibility flags re-applied): the restore happens on every
branch, capture success or failure, encode success, failure or
exception. -/
lemma execute_do_capture_host_eq (cfg : Config) (fn : String) (pad : Int)
    (siv req : Bool) (op pod : String) (options : PlayblastOptions)
    (camera orig_camera : Option String) (of pf : List (String × Bool))
    (host1 : Host) (lp : List String) :
    (execute_do_capture cfg fn pad siv req op pod options camera orig_camera
        of pf host1 lp).host =
      set_viewport_visibility
        ((set_active_camera (set_viewport_visibility host1 pf)
          (optStr orig_camera)).1) of := by
  simp only [execute_do_capture]
  repeat' split
  all_goals rfl

set_option maxHeartbeats 1000000 in
/-- Re-applying the snapshot taken by `get_viewport_visibility` (and the
camera taken by `get_active_camera`) restores the viewport snapshot,
whatever camera and visibility flags were applied in between. -/
lemma viewport_restore_snapshot (host : Host) (p : String)
    (hpan : host.activePanel = some p) (cam : Option String)
    (pf : List (String × Bool)) :
    viewport_snapshot
      (set_viewport_visibility
        ((set_active_camera
            (set_viewport_visibility ((set_active_camera host (optStr cam)).1) pf)
            (optStr ((get_active_camera host).1))).1)
        (create_viewport_visibility_flags
          ((get_viewport_visibility ((set_active_camera host (optStr cam)).1)).1.getD
            []))) =
      viewport_snapshot host := by
  simp only [get_active_camera, get_viewport_visibility, set_active_camera,
    set_viewport_visibility, hpan]
  rfl

set_option maxHeartbeats 1000000 in
/-- Restore-on-all-paths for `execute_capture`: whenever the capture
primitive was invoked, the viewport snapshot is unchanged afterwards. -/
lemma execute_capture_any_capture_restores (cfg : Config) (host : Host)
    (fn : String) (pad : Int) (so siv req : Bool) (op pod po : String)
    (fo : Bool) (comp : String) (iq : Int) (ifz vw : Bool) :
    ((execute_capture cfg host fn pad so siv req op pod po fo comp iq
        ifz vw).effects.any isCaptureEffect) = true →
    viewport_snapshot
        (execute_capture cfg host fn pad so siv req op pod po fo comp iq
          ifz vw).host =
      viewport_snapshot host := by
  cases hpan : host.activePanel with
  | none =>
    simp only [execute_capture]
    repeat' split
    all_goals intro h
    all_goals first
      | exact Bool.noConfusion h
      | simp_all [get_viewport_visibility, get_visibility, set_active_camera, hpan]
  | some p =>
    simp only [execute_capture]
    repeat' split
    all_goals intro h
    all_goals first
      | exact Bool.noConfusion h
      | (rw [execute_do_capture_host_eq]; exact viewport_restore_snapshot host p hpan _ _)

/-! ## Claim theorems -/

set_option maxHeartbeats 1000000 in
/-- Claim C1: every call to `execute` that reaches the capture step
(i.e. whose effect trace contains the invocation of the capture
primitive) leaves the viewport snapshot — the active camera and the value
of all catalog visibility flags — equal to the snapshot before the call,
independent of the outcome of the capture or of the later encode step. -/
theorem execute_restores_viewport_state (cfg : Config) (host : Host)
    (output_dir filename : String) (padding : Int)
    (show_ornaments show_in_viewer overwrite : Bool) :
    ((execute cfg host output_dir filename padding show_ornaments show_in_viewer
        overwrite).effects.any isCaptureEffect) = true →
    viewport_snapshot
        (execute cfg host output_dir filename padding show_ornaments show_in_viewer
          overwrite).host =
      viewport_snapshot host := by
  simp only [execute]
  repeat' split
  all_goals intro h
  all_goals first
    | exact Bool.noConfusion h
    | exact execute_capture_any_capture_restores cfg host _ _ _ _ _ _ _ _ _ _ _ _ _ h

/-- Witness for C1, exercising both outcomes of the capture primitive: a
run whose capture succeeds (image-sequence mode) and a run whose capture
fails both reach the capture step and both restore the viewport
snapshot. -/
theorem execute_restores_viewport_state_witness :
    (((execute cfgImage hostBase "/tmp/movies" "shot" 4 true true false).effects.any
        isCaptureEffect) = true ∧
      viewport_snapshot
          (execute cfgImage hostBase "/tmp/movies" "shot" 4 true true false).host =
        viewport_snapshot hostBase) ∧
    (((execute cfgBase { hostBase with playblastOk := false } "/tmp/movies" "shot" 4
        true true false).effects.any isCaptureEffect) = true ∧
      viewport_snapshot
          (execute cfgBase { hostBase with playblastOk := false } "/tmp/movies" "shot"
            4 true true false).host =
        viewport_snapshot { hostBase with playblastOk := false }) :=
  ⟨⟨by decide,
    execute_restores_viewport_state cfgImage hostBase "/tmp/movies" "shot" 4 true true
      false (by decide)⟩,
   ⟨by decide,
    execute_restores_viewport_state cfgBase { hostBase with playblastOk := false }
      "/tmp/movies" "shot" 4 true true false (by decide)⟩⟩

/-- Counterexample to claim C2 as stated: for the invalid pair
`("mp4", "png")` (valid container, encoder not allowed for it),
`set_encoding` logs an error but does *not* leave the previously accepted
state unchanged — the stored pair becomes the invalid `("mp4", "png")`. -/
theorem set_encoding_invalid_pair_mutates_state :
    (set_encoding cfgBase "mp4" "png").1 =
      .ok { cfgBase with container_format := "mp4", encoder := "png" } ∧
    ({ cfgBase with container_format := "mp4", encoder := "png" }).encoder ≠
      cfgBase.encoder ∧
    (set_encoding cfgBase "mp4" "png").2 =
      [errLine "Invalid encoder: png. Expected one of ['h264']"] := by decide

/-- Claim C2 as amended: for an invalid pair whose container is valid,
`set_encoding` emits exactly one error-level log line and does not raise,
but unconditionally overwrites the stored `(container, encoder)` state
with the new (invalid) pair; for a pair whose container is invalid it
emits exactly one error-level log line and then raises `KeyError` at the
`VIDEO_ENCODER_LOOKUP` subscript. -/
theorem set_encoding_amended_behavior (cfg : Config) (container encoder : String) :
    (∀ encoders, VIDEO_ENCODER_LOOKUP.lookup container = some encoders →
      encoder ∉ encoders →
      (set_encoding cfg container encoder).1 =
        .ok { cfg with container_format := container, encoder := encoder } ∧
      (set_encoding cfg container encoder).2 =
        [errLine ("Invalid encoder: " ++ encoder ++ ". Expected one of " ++
          strListRepr encoders)]) ∧
    (VIDEO_ENCODER_LOOKUP.lookup container = none →
      (set_encoding cfg container encoder).1 = .error ("KeyError: " ++ container) ∧
      (set_encoding cfg container encoder).2 =
        [errLine ("Invalid container: " ++ container ++ ". Expected one of " ++
          strListRepr (VIDEO_ENCODER_LOOKUP.map Prod.fst))]) := by
  constructor
  · intro encoders hlk hct
    simp [set_encoding, hlk, hct]
  · intro hlk
    simp [set_encoding, hlk]

/-- Witness for the amended C2: the invalid pair `("mp4", "png")` and the
invalid container `"avi"` at the default configuration. -/
theorem set_encoding_amended_behavior_witness :
    ((set_encoding cfgBase "mp4" "png").1 =
        .ok { cfgBase with container_format := "mp4", encoder := "png" } ∧
      (set_encoding cfgBase "mp4" "png").2 =
        [errLine ("Invalid encoder: " ++ "png" ++ ". Expected one of " ++
          strListRepr ["h264"])]) ∧
    ((set_encoding cfgBase "avi" "h264").1 = .error ("KeyError: " ++ "avi") ∧
      (set_encoding cfgBase "avi" "h264").2 =
        [errLine ("Invalid container: " ++ "avi" ++ ". Expected one of " ++
          strListRepr (VIDEO_ENCODER_LOOKUP.map Prod.fst))]) :=
  ⟨(set_encoding_amended_behavior cfgBase "mp4" "png").1 ["h264"] (by decide)
      (by decide),
   (set_encoding_amended_behavior cfgBase "avi" "h264").2 (by decide)⟩

/-- Claim C3 evidence (code bug): exceptions do escape `execute` on the
two audio paths the claim singles out.  With a linked audio source whose
file exists, the `ffmpeg += ...` typo at source line 220 (the name
`ffmpeg` is undefined; the variable is `ffmpeg_cmd`) raises `NameError`;
with a linked audio node whose backing file does not exist,
`get_audio_attributes` falls into an implicit `None` return (its
`if file_info.exists()` body has no `else`), and unpacking it at line 204
raises `TypeError`.  Both escape to the caller of `execute`. -/
theorem execute_audio_paths_raise :
    (execute cfgBase hostAudio "/tmp/movies" "shot" 4 true true false).exc =
      some "NameError: name 'ffmpeg' is not defined" ∧
    (execute cfgBase hostAudioMissing "/tmp/movies" "shot" 4 true true false).exc =
      some "TypeError: cannot unpack non-iterable NoneType object" := by decide

/-- Claim C4 evidence (code bug): with no audio source the command built
by `encode_h264` has exactly the form specified in §6 of the spec (with
the audio clauses absent); with an audio file present the source's
line 220 appends to the undefined name `ffmpeg` instead of `ffmpeg_cmd`,
so `encode_h264` raises `NameError` and never produces the specified
audio clauses. -/
theorem encode_h264_cmd_and_audio_bug (cfg : Config) (host : Host)
    (src out : String) (sf fps : ℚ) (crf : Int)
    (hfr : get_frame_rate host = .ok fps)
    (hq : H264_QUALITIES.lookup cfg.h264_quality = some crf) :
    (host.soundNode = none →
      encode_h264 cfg host src out sf =
        .ok ([spec_h264_cmd cfg.ffmpeg_path fps src none crf cfg.h264_preset out],
          spec_h264_cmd cfg.ffmpeg_path fps src none crf cfg.h264_preset out)) ∧
    (∀ node, host.soundNode = some node →
      host.fileExists (host.soundFile node) = true →
      encode_h264 cfg host src out sf =
        .error "NameError: name 'ffmpeg' is not defined") := by
  constructor
  · intro hsn
    simp [encode_h264, hfr, get_audio_attributes, hsn, hq, spec_h264_cmd]
  · intro node hsn hex
    simp [encode_h264, hfr, get_audio_attributes, hsn, hex, hq]

/-- Witness for C4: the default configuration (High quality → CRF 20,
preset fast) at film speed, without and with an audio source. -/
theorem encode_h264_cmd_and_audio_bug_witness :
    encode_h264 cfgBase hostBase "/tmp/seq.%04d.png" "/tmp/out.mp4" 1 =
      .ok ([spec_h264_cmd "/bin/ffmpeg" 24 "/tmp/seq.%04d.png" none 20 "fast"
          "/tmp/out.mp4"],
        spec_h264_cmd "/bin/ffmpeg" 24 "/tmp/seq.%04d.png" none 20 "fast"
          "/tmp/out.mp4") ∧
    encode_h264 cfgBase hostAudio "/tmp/seq.%04d.png" "/tmp/out.mp4" 1 =
      .error "NameError: name 'ffmpeg' is not defined" :=
  ⟨(encode_h264_cmd_and_audio_bug cfgBase hostBase "/tmp/seq.%04d.png" "/tmp/out.mp4"
      1 24 20 (by decide) (by decide)).1 rfl,
   (encode_h264_cmd_and_audio_bug cfgBase hostAudio "/tmp/seq.%04d.png" "/tmp/out.mp4"
      1 24 20 (by decide) (by decide)).2 "soundNode1" rfl (by decide)⟩

/-- Counterexample to claim C5 as stated: the visibility vector produced
for preset `"Geo"` has length 37, not 35 — the source catalog
(`VIEWPORT_VISIBILITY_LOOKUP`) has 37 entries. -/
theorem geo_preset_length_not_35 :
    ((preset_to_visibility "Geo").1.getD []).length = 37 ∧
    ((preset_to_visibility "Geo").1.getD []).length ≠ 35 := by decide

/-- Claim C5 as amended: resolving preset `"Geo"` yields (with no log
output) a boolean vector of length 37 aligned with the catalog order, in
which exactly the slots labelled `"NURBS Surfaces"` (index 2) and
`"Polygons"` (index 5) are true and every other slot is false. -/
theorem geo_preset_expansion :
    preset_to_visibility "Geo" = (some geoExpected, []) ∧
    geoExpected.length = 37 ∧
    (List.range geoExpected.length).filter (fun i => geoExpected.getD i false) =
      [2, 5] ∧
    (VIEWPORT_VISIBILITY_LOOKUP.map Prod.fst).getD 2 "" = "NURBS Surfaces" ∧
    (VIEWPORT_VISIBILITY_LOOKUP.map Prod.fst).getD 5 "" = "Polygons" := by decide

/-- Counterexample to claim C6 as stated: `"xfps"` ends in `"fps"` but is
not parsed as a literal float — the call fails (Python raises
`ValueError` inside `float("x")`). -/
theorem frame_rate_fps_suffix_not_parsed :
    strEndsWith "xfps" "fps" = true ∧
    get_frame_rate { hostBase with timeUnit := "xfps" } =
      .error "ValueError: could not convert string to float: x" := by decide

/-- Claim C6 as amended: `get_frame_rate` maps the named time units
through the fixed table (game→15, film→24, pal→25, ntsc→30, show→48,
palf→50, ntscf→60); a string ending in `"fps"` whose remainder is a
decimal literal is parsed to that value (e.g. `"29.97fps"` → 29.97); and
every other string — including an `"fps"`-suffixed string with a
non-numeric remainder — is a fatal error for that call.  This is exactly
`spec_frame_rate`; the named instances below spell out the table and the
parse example. -/
theorem get_frame_rate_follows_table :
    (∀ host : Host, get_frame_rate host = spec_frame_rate host.timeUnit) ∧
    get_frame_rate { hostBase with timeUnit := "game" } = .ok 15 ∧
    get_frame_rate { hostBase with timeUnit := "film" } = .ok 24 ∧
    get_frame_rate { hostBase with timeUnit := "pal" } = .ok 25 ∧
    get_frame_rate { hostBase with timeUnit := "ntsc" } = .ok 30 ∧
    get_frame_rate { hostBase with timeUnit := "show" } = .ok 48 ∧
    get_frame_rate { hostBase with timeUnit := "palf" } = .ok 50 ∧
    get_frame_rate { hostBase with timeUnit := "ntscf" } = .ok 60 ∧
    get_frame_rate { hostBase with timeUnit := "29.97fps" } = .ok (2997 / 100) ∧
    get_frame_rate { hostBase with timeUnit := "bogus" } =
      .error "Unsupported frame rate: bogus" := by
  refine ⟨fun _ => rfl, by decide, by decide, by decide, by decide, by decide,
    by decide, by decide, ?_, by decide⟩
  have h : get_frame_rate { hostBase with timeUnit := "29.97fps" } =
      .ok ((29 : ℚ) + (97 : ℚ) / ((10 : ℚ) ^ 2)) := rfl
  rw [h]
  norm_num

/-- Claim C7: the audio seek offset computed by `get_audio_offset_in_sec`
is `(start_frame - audio_frame_offset) / frame_rate` seconds, for every
start frame, audio frame offset and nonzero frame rate. -/
theorem audio_offset_equals_formula (s a r : ℚ) (_h : r ≠ 0) :
    get_audio_offset_in_sec s a r = (s - a) / r := rfl

/-- Witness for C7 at the spec's example: start frame 10, audio frame
offset 5, frame rate 24 give 5/24 seconds. -/
theorem audio_offset_equals_formula_witness :
    (24 : ℚ) ≠ 0 ∧ get_audio_offset_in_sec 10 5 24 = 5 / 24 :=
  ⟨by norm_num, by rw [audio_offset_equals_formula 10 5 24 (by norm_num)]; norm_num⟩

set_option maxHeartbeats 1000000 in
/-- Claim C8: when encoding is required, `overwrite` is false and the
computed final artifact already exists on disk, `execute` aborts before
any capture work: the host (and in particular the viewport) is untouched,
no external effect — and so no filesystem write — is performed, no
exception escapes, and the log consists of exactly one error line. -/
theorem execute_aborts_on_existing_output (cfg : Config) (host : Host)
    (output_dir filename : String) (padding : Int)
    (show_ornaments show_in_viewer : Bool) (p : String)
    (hreq : requires_ffmpeg cfg = true)
    (hval : (validate_ffmpeg cfg host).1 = true)
    (hpan : host.activePanel = some p)
    (hod : output_dir ≠ "") (hfn : filename ≠ "")
    (hex : host.fileExists
      (os_path_normpath (os_path_join (resolve_output_directory_path host output_dir)
        (resolve_output_filename host filename ++ "." ++ cfg.container_format))) =
      true) :
    execute cfg host output_dir filename padding show_ornaments show_in_viewer
        false =
      { host := host
        log := [errLine "Output file already exists. Enable overwrite to ignore."]
        effects := []
        exc := none } := by
  simp [execute, get_viewport_panel, hreq, hval, hpan, hod, hfn, hex]

/-- Witness for C8: the default mp4 configuration with the artifact
`/tmp/movies/shot.mp4` already present. -/
theorem execute_aborts_on_existing_output_witness :
    execute cfgBase hostOutExists "/tmp/movies" "shot" 4 true true false =
      { host := hostOutExists
        log := [errLine "Output file already exists. Enable overwrite to ignore."]
        effects := []
        exc := none } :=
  execute_aborts_on_existing_output cfgBase hostOutExists "/tmp/movies" "shot" 4
    true true "modelPanel4" (by decide) (by decide) rfl (by decide) (by decide)
    (by decide)

/-- Claim C9: while a resolution preset is the stored configuration,
resolving the resolution re-queries at call time: the three static
presets give the table values (positive pairs), and `"Render"` gives the
host's *current* global render resolution (whatever explicit pair the
configuration may also hold), positive whenever the host's values are. -/
theorem resolution_preset_resolves_live (cfg : Config) (host : Host) (P : String)
    (hP : cfg.resolution_preset = some P) :
    (P = "HD 1080" →
      get_resolution_width_height cfg host = .ok (1920, 1080) ∧
        (0 : Int) < 1920 ∧ (0 : Int) < 1080) ∧
    (P = "HD 720" →
      get_resolution_width_height cfg host = .ok (1280, 720) ∧
        (0 : Int) < 1280 ∧ (0 : Int) < 720) ∧
    (P = "HD 540" →
      get_resolution_width_height cfg host = .ok (960, 540) ∧
        (0 : Int) < 960 ∧ (0 : Int) < 540) ∧
    (P = "Render" →
      get_resolution_width_height cfg host =
        .ok (host.renderWidth, host.renderHeight)) ∧
    (P = "Render" → 0 < host.renderWidth → 0 < host.renderHeight →
      ∃ w h, get_resolution_width_height cfg host = .ok (w, h) ∧
        0 < w ∧ 0 < h) := by
  refine ⟨?_, ?_, ?_, ?_, ?_⟩ <;> intro hP'
  · subst hP'
    refine ⟨?_, by decide, by decide⟩
    simp [get_resolution_width_height, optTruthy, hP, preset_to_resolution,
      RESOLUTION_LOOKUP]
    decide
  · subst hP'
    refine ⟨?_, by decide, by decide⟩
    simp [get_resolution_width_height, optTruthy, hP, preset_to_resolution,
      RESOLUTION_LOOKUP]
    decide
  · subst hP'
    refine ⟨?_, by decide, by decide⟩
    simp [get_resolution_width_height, optTruthy, hP, preset_to_resolution,
      RESOLUTION_LOOKUP]
    decide
  · subst hP'
    simp [get_resolution_width_height, optTruthy, hP, preset_to_resolution]
  · intro hw hh
    subst hP'
    refine ⟨host.renderWidth, host.renderHeight, ?_, hw, hh⟩
    simp [get_resolution_width_height, optTruthy, hP, preset_to_resolution]

/-- Witness for C9: a configuration whose stored explicit pair is the
stale `(1, 1)` still resolves `"HD 1080"` to `(1920, 1080)` and
`"Render"` to the host's live render resolution `(1920, 1080)`. -/
theorem resolution_preset_resolves_live_witness :
    get_resolution_width_height
        { cfgBase with resolution_preset := some "HD 1080", width_height := (1, 1) }
        hostBase = .ok (1920, 1080) ∧
    get_resolution_width_height
        { cfgBase with resolution_preset := some "Render", width_height := (1, 1) }
        hostBase = .ok (hostBase.renderWidth, hostBase.renderHeight) :=
  ⟨((resolution_preset_resolves_live
      { cfgBase with resolution_preset := some "HD 1080", width_height := (1, 1) }
      hostBase "HD 1080" rfl).1 rfl).1,
   (resolution_preset_resolves_live
      { cfgBase with resolution_preset := some "Render", width_height := (1, 1) }
      hostBase "Render" rfl).2.2.2.1 rfl⟩

/-- Claim C10: `set_camera` with a (nonempty) camera name missing from
the host's camera list logs an error and stores `None` — not the
previously stored camera — so the effective capture camera of a later
`execute` falls back to the viewport's current camera; a name present in
the list (or `None`) is stored as given. -/
theorem set_camera_invalid_resets_to_none (cfg : Config) (host : Host)
    (c : String) :
    (c ≠ "" → c ∉ host.cameras →
      set_camera cfg host (some c) =
        ({ cfg with camera := none },
          [errLine ("Camera does not exist: " ++ c)]) ∧
      effective_camera (set_camera cfg host (some c)).1 (some host.activeCamera) =
        some host.activeCamera) ∧
    (c ∈ host.cameras →
      set_camera cfg host (some c) = ({ cfg with camera := some c }, [])) ∧
    set_camera cfg host none = ({ cfg with camera := none }, []) := by
  refine ⟨?_, ?_, ?_⟩
  · intro hne hmem
    constructor
    · simp [set_camera, optTruthy, optStr, hne, hmem]
    · simp [set_camera, optTruthy, hne, hmem, effective_camera]
  · intro hmem
    simp [set_camera, optTruthy, hmem]
  · simp [set_camera, optTruthy]

/-- Witness for C10: `badCam` is not a camera of the host and resets the
stored camera to `None`; `shotCam` is and is stored. -/
theorem set_camera_invalid_resets_to_none_witness :
    (set_camera cfgBase hostBase (some "badCam") =
        ({ cfgBase with camera := none },
          [errLine ("Camera does not exist: " ++ "badCam")]) ∧
      effective_camera (set_camera cfgBase hostBase (some "badCam")).1
          (some hostBase.activeCamera) = some hostBase.activeCamera) ∧
    set_camera cfgBase hostBase (some "shotCam") =
      ({ cfgBase with camera := some "shotCam" }, []) :=
  ⟨(set_camera_invalid_resets_to_none cfgBase hostBase "badCam").1 (by decide)
      (by decide),
   (set_camera_invalid_resets_to_none cfgBase hostBase "shotCam").2.1 (by decide)⟩

end BPlayblast
